import Mathlib

/-
  Verification development for the hybrid student-learning-portal repository
  (MySQL + MongoDB course-management system).

  The definitions below are shallow embeddings of the JavaScript source:
  Mongoose document methods become pure Lean functions over explicit
  document values, fallible operations return `Except`, and the HTTP
  controllers become state-passing functions over explicit store states.
-/

namespace StudentPortal

/-! ## Assignment model (src/src/models/ActivityLog.js, Assignment section)

The `submissions` array embeds one `Submission` per student; `addSubmission`
(lines 490-525) and `gradeSubmission` (lines 528-547) mutate it. -/

/-- Submission `status` enumeration from the `submissionSchema`
(`submitted`, `graded`, `late`, `resubmit`). -/
inductive SubStatus where
  | submitted
  | graded
  | late
  | resubmit
deriving DecidableEq, Repr

/-- An embedded submission sub-document (`submissionSchema`). Timestamps are
modelled as natural numbers (milliseconds since epoch); JS numbers used as
ids and marks are modelled as `Int`. -/
structure Submission where
  student_id : Int
  submitted_at : Nat
  submission_type : String
  file_path : Option String
  submission_link : Option String
  submission_text : Option String
  remarks : Option String
  grade : Option Int
  graded_at : Option Nat
  graded_by : Option Int
  feedback : Option String
  status : SubStatus
deriving DecidableEq, Repr

/-- The request payload consumed by `addSubmission` (the `submissionData`
argument); `submission_type` is optional and defaults to `"file"` via
`submissionData.submission_type || 'file'`. -/
structure SubmissionData where
  submission_type : Option String
  file_path : Option String
  submission_link : Option String
  submission_text : Option String
  remarks : Option String
deriving DecidableEq, Repr

/-- An Assignment document (`assignmentSchema`), restricted to the fields
read or written by the embedded-submission operations. -/
structure Assignment where
  course_id : Int
  max_marks : Int
  due_date : Nat
  allow_late_submission : Bool
  submissions : List Submission
  submission_count : Nat
  updated_at : Nat
deriving DecidableEq, Repr

/-- JS `this.submissions.find(s => s.student_id === studentId)`: first
submission whose `student_id` matches. -/
def findByStudent (studentId : Int) : List Submission → Option Submission
  | [] => none
  | s :: rest => if s.student_id = studentId then some s else findByStudent studentId rest

/-- JS `this.submissions.findIndex(s => s.student_id === studentId) !== -1`:
whether some submission carries this `student_id`. -/
def hasStudent (studentId : Int) : List Submission → Bool
  | [] => false
  | s :: rest => if s.student_id = studentId then true else hasStudent studentId rest

/-- JS `this.submissions[existingIndex] = submission` where `existingIndex`
is the first index with a matching `student_id`: replace the first matching
entry in place. -/
def replaceFirstByStudent (studentId : Int) (sub : Submission) :
    List Submission → List Submission
  | [] => []
  | s :: rest =>
    if s.student_id = studentId then sub :: rest
    else s :: replaceFirstByStudent studentId sub rest

/-- Message thrown by `addSubmission` when a late submission is rejected. -/
def lateRejectedMsg : String := "Late submissions are not allowed for this assignment"

/-- The fresh submission object built inside `addSubmission`. -/
def buildSubmission (studentId : Int) (data : SubmissionData) (now : Nat)
    (isLate : Bool) : Submission :=
  { student_id := studentId
    submitted_at := now
    submission_type := data.submission_type.getD "file"
    file_path := data.file_path
    submission_link := data.submission_link
    submission_text := data.submission_text
    remarks := data.remarks
    grade := none
    graded_at := none
    graded_by := none
    feedback := none
    status := if isLate then SubStatus.late else SubStatus.submitted }

/-- Embeds `assignmentSchema.methods.addSubmission`
(src/src/models/ActivityLog.js:490-525): rejects late submissions when
`allow_late_submission` is false; otherwise replaces the student's existing
submission in place (leaving `submission_count` untouched) or appends a new
one and sets `submission_count` to the new list length. -/
def addSubmission (a : Assignment) (studentId : Int) (data : SubmissionData)
    (now : Nat) : Except String Assignment :=
  let isLate := now > a.due_date
  if !a.allow_late_submission && isLate then
    Except.error lateRejectedMsg
  else
    let submission := buildSubmission studentId data now isLate
    if hasStudent studentId a.submissions then
      Except.ok { a with
        submissions := replaceFirstByStudent studentId submission a.submissions
        updated_at := now }
    else
      Except.ok { a with
        submissions := a.submissions ++ [submission]
        submission_count := (a.submissions ++ [submission]).length
        updated_at := now }

/-- Message thrown by `gradeSubmission` when no submission exists. -/
def subNotFoundMsg : String := "Submission not found for this student"

/-- Message thrown by `gradeSubmission` when the grade exceeds `max_marks`. -/
def gradeTooHighMsg : String := "Grade cannot exceed maximum marks"

/-- The grading payload consumed by `gradeSubmission` (the `gradeData`
argument). -/
structure GradeData where
  grade : Int
  feedback : Option String
  graded_by : Option Int
deriving DecidableEq, Repr

/-- In-place field updates applied by `gradeSubmission` to the located
submission object. -/
def applyGrade (g : GradeData) (now : Nat) (s : Submission) : Submission :=
  { s with
    grade := some g.grade
    feedback := g.feedback
    graded_by := g.graded_by
    graded_at := some now
    status := SubStatus.graded }

/-- JS mutates the object returned by `find`, i.e. the first entry with this
`student_id`, leaving all other entries untouched. -/
def gradeFirstByStudent (studentId : Int) (g : GradeData) (now : Nat) :
    List Submission → List Submission
  | [] => []
  | s :: rest =>
    if s.student_id = studentId then applyGrade g now s :: rest
    else s :: gradeFirstByStudent studentId g now rest

/-- Embeds `assignmentSchema.methods.gradeSubmission`
(src/src/models/ActivityLog.js:528-547): NotFound when the student has no
submission, error when `grade > max_marks`, otherwise sets `grade`,
`feedback`, `graded_by`, `graded_at` and `status = graded`. -/
def gradeSubmission (a : Assignment) (studentId : Int) (g : GradeData)
    (now : Nat) : Except String Assignment :=
  match findByStudent studentId a.submissions with
  | none => Except.error subNotFoundMsg
  | some _ =>
    if g.grade > a.max_marks then
      Except.error gradeTooHighMsg
    else
      Except.ok { a with
        submissions := gradeFirstByStudent studentId g now a.submissions
        updated_at := now }

/-- Embeds `assignmentSchema.methods.getSubmissionByStudent`
(src/src/models/ActivityLog.js:550-552). -/
def getSubmissionByStudent (a : Assignment) (studentId : Int) : Option Submission :=
  findByStudent studentId a.submissions

/-- Distinctness of `student_id`s in a submissions list. -/
def StudentIdsDistinct (l : List Submission) : Prop :=
  l.Pairwise (fun s t => s.student_id ≠ t.student_id)

instance studentIdsDistinctDec : (l : List Submission) → Decidable (StudentIdsDistinct l)
  | [] => isTrue (by simp [StudentIdsDistinct])
  | s :: rest =>
    have _ : Decidable (StudentIdsDistinct rest) := studentIdsDistinctDec rest
    decidable_of_iff ((∀ t ∈ rest, s.student_id ≠ t.student_id) ∧ StudentIdsDistinct rest)
      (by rw [StudentIdsDistinct, StudentIdsDistinct, List.pairwise_cons])

/-- Well-formedness of an Assignment document: embedded submissions carry
pairwise-distinct `student_id`s and the stored `submission_count` equals the
embedded list length. A freshly created assignment (`submissions: []`,
`submission_count: 0` schema defaults) satisfies it. -/
def SubWF (a : Assignment) : Prop :=
  StudentIdsDistinct a.submissions ∧ a.submission_count = a.submissions.length

instance (a : Assignment) : Decidable (SubWF a) := by
  unfold SubWF
  infer_instance

/-- One controller-level submit step: on error the route handler returns a
failure response and the stored document is left as it was; on success the
saved document replaces it. -/
def submitStep (a : Assignment) (op : Int × SubmissionData × Nat) : Assignment :=
  match addSubmission a op.1 op.2.1 op.2.2 with
  | Except.ok a' => a'
  | Except.error _ => a

/-- The stored document after an arbitrary sequence of submit operations,
each given as `(student_id, payload, time)`. -/
def runSubmits (a : Assignment) : List (Int × SubmissionData × Nat) → Assignment
  | [] => a
  | op :: rest => runSubmits (submitStep a op) rest

/-- The stored document after one controller-level grading request: kept
unchanged when `gradeSubmission` throws. -/
def runGrade (a : Assignment) (studentId : Int) (g : GradeData) (now : Nat) :
    Assignment :=
  match gradeSubmission a studentId g now with
  | Except.ok a' => a'
  | Except.error _ => a

/-! ## Discussion model (src/src/models/Discussion.js)

`addPost` (lines 96-112) appends to the embedded `posts` array with a
sequential `post_id`; `editPost` (lines 115-127) edits an existing post in
place. -/

/-- An embedded post sub-document (`postSchema`). -/
structure Post where
  post_id : Int
  user_id : Int
  content : String
  created_at : Nat
  edited_at : Option Nat
  is_edited : Bool
deriving DecidableEq, Repr

/-- A Discussion document (`discussionSchema`), restricted to the fields read
or written by the post operations. -/
structure Discussion where
  course_id : Int
  title : String
  created_by : Int
  posts : List Post
  post_count : Nat
  updated_at : Nat
deriving DecidableEq, Repr

/-- JS `Math.max(...this.posts.map(p => p.post_id))`, only evaluated on a
non-empty list (the empty case is guarded by `this.posts.length > 0`). -/
def maxPostId : List Post → Int
  | [] => 0
  | p :: rest => rest.foldl (fun m q => max m q.post_id) p.post_id

/-- Embeds `discussionSchema.methods.addPost`
(src/src/models/Discussion.js:96-112): next `post_id` is the maximum
existing id plus one (1 when the list is empty); the post is appended and
`post_count` is recomputed as the list length. -/
def addPost (d : Discussion) (userId : Int) (content : String) (now : Nat) :
    Discussion :=
  let newPostId := if d.posts.length > 0 then maxPostId d.posts + 1 else 1
  let posts := d.posts ++
    [{ post_id := newPostId
       user_id := userId
       content := content
       created_at := now
       edited_at := none
       is_edited := false }]
  { d with posts := posts, post_count := posts.length, updated_at := now }

/-- JS `this.posts.find(p => p.post_id === postId)`. -/
def findPost (postId : Int) : List Post → Option Post
  | [] => none
  | p :: rest => if p.post_id = postId then some p else findPost postId rest

/-- Message thrown by `editPost` when the post is absent. -/
def postNotFoundMsg : String := "Post not found"

/-- In-place edit applied by `editPost` to the first post with the given id
(JS mutates the object returned by `find`). -/
def editFirstPost (postId : Int) (newContent : String) (now : Nat) :
    List Post → List Post
  | [] => []
  | p :: rest =>
    if p.post_id = postId then
      { p with content := newContent, edited_at := some now, is_edited := true } :: rest
    else p :: editFirstPost postId newContent now rest

/-- Embeds `discussionSchema.methods.editPost`
(src/src/models/Discussion.js:115-127): NotFound when no post carries the
id; otherwise updates the post content and edit markers. -/
def editPost (d : Discussion) (postId : Int) (newContent : String) (now : Nat) :
    Except String Discussion :=
  match findPost postId d.posts with
  | none => Except.error postNotFoundMsg
  | some _ =>
    Except.ok { d with
      posts := editFirstPost postId newContent now d.posts
      updated_at := now }

/-- The stored discussion after one controller-level edit request: kept
unchanged when `editPost` throws. -/
def editStep (d : Discussion) (postId : Int) (newContent : String) (now : Nat) :
    Discussion :=
  match editPost d postId newContent now with
  | Except.ok d' => d'
  | Except.error _ => d

/-- Distinctness of `post_id`s in a posts list. -/
def PostIdsDistinct (l : List Post) : Prop :=
  l.Pairwise (fun p q => p.post_id ≠ q.post_id)

instance postIdsDistinctDec : (l : List Post) → Decidable (PostIdsDistinct l)
  | [] => isTrue (by simp [PostIdsDistinct])
  | p :: rest =>
    have _ : Decidable (PostIdsDistinct rest) := postIdsDistinctDec rest
    decidable_of_iff ((∀ q ∈ rest, p.post_id ≠ q.post_id) ∧ PostIdsDistinct rest)
      (by rw [PostIdsDistinct, PostIdsDistinct, List.pairwise_cons])

/-- Well-formedness of a Discussion document: distinct `post_id`s and a
`post_count` equal to the embedded list length (schema defaults of a fresh
document satisfy it). -/
def DiscWF (d : Discussion) : Prop :=
  PostIdsDistinct d.posts ∧ d.post_count = d.posts.length

instance (d : Discussion) : Decidable (DiscWF d) := by
  unfold DiscWF
  infer_instance

/-- The stored discussion after an arbitrary sequence of append operations,
each given as `(user_id, content, time)`. -/
def runPosts (d : Discussion) : List (Int × String × Nat) → Discussion
  | [] => d
  | op :: rest => runPosts (addPost d op.1 op.2.1 op.2.2) rest

/-! ## Relational store, enrollment controller and activity-log sink
(src/unnamed/part_007 course controller, src/src/middleware/activityLogger.js) -/

/-- Enrollment `status` enumeration (`ENUM('active','dropped','completed')`
in schema.sql). -/
inductive EnrollStatus where
  | active
  | dropped
  | completed
deriving DecidableEq, Repr

/-- The `status` value as it appears in the SQL row / JS string. -/
def enrollStatusName : EnrollStatus → String
  | EnrollStatus.active => "active"
  | EnrollStatus.dropped => "dropped"
  | EnrollStatus.completed => "completed"

/-- A row of the `courses` table, restricted to the columns the enroll
handler reads. -/
structure CourseRow where
  course_id : Int
  course_name : String
deriving DecidableEq, Repr

/-- A row of the `enrollments` table. -/
structure EnrollmentRow where
  enrollment_id : Int
  student_id : Int
  course_id : Int
  status : EnrollStatus
deriving DecidableEq, Repr

/-- The relational-store state visible to the enroll handler; the
auto-increment counter supplies new enrollment ids. -/
structure RelationalDB where
  courses : List CourseRow
  enrollments : List EnrollmentRow
  next_enrollment_id : Int
deriving DecidableEq, Repr

/-- `SELECT course_id, course_name FROM courses WHERE course_id = ?`
returning the first matching row. -/
def findCourse (courseId : Int) : List CourseRow → Option CourseRow
  | [] => none
  | c :: rest => if c.course_id = courseId then some c else findCourse courseId rest

/-- `SELECT enrollment_id, status FROM enrollments WHERE student_id = ? AND
course_id = ?` returning the first matching row: no status filter, so rows
with any status match. -/
def findEnrollment (studentId courseId : Int) : List EnrollmentRow → Option EnrollmentRow
  | [] => none
  | e :: rest =>
    if e.student_id = studentId ∧ e.course_id = courseId then some e
    else findEnrollment studentId courseId rest

/-- An activity-log record as assembled by `logManualActivity`, restricted
to the fields every call site supplies. -/
structure ActivityLogEntry where
  user_id : Int
  action : String
  success : Bool
deriving DecidableEq, Repr

/-- Embeds `logManualActivity` (src/src/middleware/activityLogger.js:109-126):
the `ActivityLog.logActivity` save is awaited inside a try/catch whose catch
only writes to the operational console, so the function resolves normally
whether or not the save failed. The save itself is modelled by its result. -/
def logManualActivityRun
    (save : ActivityLogEntry → Except String ActivityLogEntry)
    (entry : ActivityLogEntry) : Except String Unit :=
  match save entry with
  | Except.ok _ => Except.ok ()
  | Except.error _ => Except.ok ()

/-- The JSON envelope and HTTP status produced by a controller. -/
structure ApiResponse where
  status : Nat
  success : Bool
  message : String
deriving DecidableEq, Repr

/-- Embeds the `res.json` interception of the `logActivity` middleware
(src/src/middleware/activityLogger.js:50-104): the save promise is detached
with a `.catch` that only writes to the console, and the original response
is sent regardless of the save's outcome. -/
def logActivityWrapper (sink : ActivityLogEntry → Except String ActivityLogEntry)
    (entry : ActivityLogEntry) (response : ApiResponse) : ApiResponse :=
  match sink entry with
  | Except.ok _ => response
  | Except.error _ => response

/-- Embeds `enrollInCourse` (src/unnamed/part_007:479-540): 404 when the
course row is absent; 409 when any enrollment row exists for the
(student, course) pair, whatever its status; otherwise inserts an active
enrollment, awaits the activity log (whose failures `logManualActivityRun`
swallows — a propagated throw would reach the catch and answer 500) and
answers 201. -/
def enrollInCourse (db : RelationalDB)
    (sink : ActivityLogEntry → Except String ActivityLogEntry)
    (studentId courseId : Int) : ApiResponse × RelationalDB :=
  match findCourse courseId db.courses with
  | none =>
    ({ status := 404, success := false, message := "Course not found" }, db)
  | some course =>
    match findEnrollment studentId courseId db.enrollments with
    | some e =>
      ({ status := 409, success := false,
         message := "Already " ++ enrollStatusName e.status ++ " in this course" }, db)
    | none =>
      let newRow : EnrollmentRow :=
        { enrollment_id := db.next_enrollment_id
          student_id := studentId
          course_id := courseId
          status := EnrollStatus.active }
      let db' : RelationalDB :=
        { db with
          enrollments := db.enrollments ++ [newRow]
          next_enrollment_id := db.next_enrollment_id + 1 }
      match logManualActivityRun sink
          { user_id := studentId, action := "ENROLL_COURSE", success := true } with
      | Except.error _ =>
        ({ status := 500, success := false, message := "Failed to enroll in course" }, db')
      | Except.ok _ =>
        ({ status := 201, success := true,
           message := "Successfully enrolled in " ++ course.course_name }, db')

/-! ## Platform statistics report (src/unnamed/part_007:143-219) -/

/-- The relational half of the platform report (five sequential MySQL
queries). -/
structure MySQLStatsHalf where
  users_by_role : List (String × Nat)
  total_courses : Nat
  total_enrollments : Nat
  total_quizzes : Nat
  total_submissions : Nat
deriving DecidableEq, Repr

/-- The document half of the platform report (three MongoDB counts). -/
structure MongoStatsHalf where
  activity_logs : Nat
  discussions : Nat
  assignments : Nat
deriving DecidableEq, Repr

/-- The merged platform report payload. -/
structure PlatformStatsData where
  mysql_stats : MySQLStatsHalf
  mongodb_stats : MongoStatsHalf
deriving DecidableEq, Repr

/-- Whether an `Except` computation succeeded. -/
def exceptOk {ε α : Type} : Except ε α → Bool
  | Except.ok _ => true
  | Except.error _ => false

/-- Embeds `getPlatformStats` (src/unnamed/part_007:143-219): the MySQL
queries and then the MongoDB counts are awaited sequentially inside one
try/catch; the response is assembled only after every access succeeds, and
any throw reaches the single catch, which answers 500 with no data at all.
Each store's accesses are modelled by their combined result. -/
def getPlatformStats (mysqlHalf : Except String MySQLStatsHalf)
    (mongoHalf : Except String MongoStatsHalf) :
    Except String PlatformStatsData :=
  match mysqlHalf with
  | Except.error e => Except.error e
  | Except.ok m =>
    match mongoHalf with
    | Except.error e => Except.error e
    | Except.ok g => Except.ok { mysql_stats := m, mongodb_stats := g }

/-! ## Per-student course aggregation
(`getCourseStudents`, src/unnamed/part_007:547-603, and the
`student_course_summary` view, src/database/mysql/queries.sql:275-298) -/

/-- A row of the `quizzes` table (`max_marks INT`). -/
structure QuizRow where
  quiz_id : Int
  course_id : Int
  max_marks : Int
deriving DecidableEq, Repr

/-- A row of the `quiz_submissions` table (`marks_obtained INT`). -/
structure QuizSubmissionRow where
  submission_id : Int
  quiz_id : Int
  student_id : Int
  marks_obtained : Int
deriving DecidableEq, Repr

/-- MySQL `ROUND(x, 2)`: round half away from zero to two decimal places. -/
def mysqlRound2 (q : ℚ) : ℚ :=
  if q ≥ 0 then (Int.floor (q * 100 + 1 / 2) : ℚ) / 100
  else -((Int.floor (-q * 100 + 1 / 2) : ℚ) / 100)

/-- SQL LEFT JOIN of one left row against its matches: a row per match, or a
single row with NULLs on the right when there is none. -/
def leftJoin1 {α β : Type} (l : List α) (m : α → List β) : List (α × Option β) :=
  l.flatMap (fun a =>
    match m a with
    | [] => [(a, none)]
    | bs => bs.map (fun b => (a, some b)))

/-- SQL `(marks_obtained / max_marks) * 100`: NULL on division by zero
(MySQL yields NULL for `x / 0`). -/
def pctOfPair (marks maxm : Int) : Option ℚ :=
  if maxm = 0 then none
  else some ((marks : ℚ) / (maxm : ℚ) * 100)

/-- SQL `ROUND(AVG(expr), 2)`: `AVG` ignores NULL rows and is NULL when no
non-NULL row exists. -/
def avgPercentage (vals : List (Option ℚ)) : Option ℚ :=
  match vals.filterMap id with
  | [] => none
  | xs => some (mysqlRound2 (xs.sum / xs.length))

/-- The FROM/LEFT JOIN clause of `getCourseStudents` restricted to one
enrolled student: all of the student's quiz submissions (over every course)
LEFT JOINed with the quiz row matching `qs.quiz_id = q.quiz_id AND
q.course_id = e.course_id`; a student with no submissions contributes a
single all-NULL row. -/
def courseStudentsJoin (quizzes : List QuizRow) (subs : List QuizSubmissionRow)
    (studentId courseId : Int) :
    List (Option QuizSubmissionRow × Option QuizRow) :=
  match subs.filter (fun s => decide (s.student_id = studentId)) with
  | [] => [(none, none)]
  | mySubs =>
    (leftJoin1 mySubs (fun s =>
      quizzes.filter (fun q =>
        decide (q.quiz_id = s.quiz_id ∧ q.course_id = courseId)))).map
      (fun r => (some r.1, r.2))

/-- One row of the `getCourseStudents` response. -/
structure CourseStudentRow where
  quizzes_submitted : Nat
  avg_percentage : Option ℚ
deriving DecidableEq, Repr

/-- Embeds the per-student aggregates of `getCourseStudents`
(src/unnamed/part_007:573-589): `COUNT(DISTINCT qs.submission_id)` and
`ROUND(AVG((qs.marks_obtained / q.max_marks) * 100), 2)`. -/
def getCourseStudentsRow (quizzes : List QuizRow) (subs : List QuizSubmissionRow)
    (studentId courseId : Int) : CourseStudentRow :=
  let rows := courseStudentsJoin quizzes subs studentId courseId
  { quizzes_submitted :=
      ((rows.filterMap Prod.fst).map (fun s => s.submission_id)).dedup.length
    avg_percentage := avgPercentage (rows.map (fun r =>
      match r with
      | (some s, some q) => pctOfPair s.marks_obtained q.max_marks
      | _ => none)) }

/-- The FROM/LEFT JOIN clause of the `student_course_summary` view
restricted to one (student, course) group: the course's quizzes LEFT JOINed
with the student's submission per quiz; a course with no quizzes contributes
a single all-NULL row. -/
def summaryJoin (quizzes : List QuizRow) (subs : List QuizSubmissionRow)
    (studentId courseId : Int) :
    List (Option QuizRow × Option QuizSubmissionRow) :=
  match quizzes.filter (fun q => decide (q.course_id = courseId)) with
  | [] => [(none, none)]
  | courseQs =>
    (leftJoin1 courseQs (fun q =>
      subs.filter (fun s =>
        decide (s.quiz_id = q.quiz_id ∧ s.student_id = studentId)))).map
      (fun r => (some r.1, r.2))

/-- One row of the `student_course_summary` view. -/
structure SummaryRow where
  total_quizzes : Nat
  quizzes_submitted : Nat
  avg_percentage : Option ℚ
deriving DecidableEq, Repr

/-- Embeds the aggregates of the `student_course_summary` view
(src/database/mysql/queries.sql:275-298): `COUNT(DISTINCT q.quiz_id)`,
`COUNT(DISTINCT qs.submission_id)` and
`ROUND(AVG((qs.marks_obtained / q.max_marks) * 100), 2)`. -/
def studentCourseSummaryRow (quizzes : List QuizRow) (subs : List QuizSubmissionRow)
    (studentId courseId : Int) : SummaryRow :=
  let rows := summaryJoin quizzes subs studentId courseId
  { total_quizzes :=
      ((rows.filterMap Prod.fst).map (fun q => q.quiz_id)).dedup.length
    quizzes_submitted :=
      ((rows.filterMap Prod.snd).map (fun s => s.submission_id)).dedup.length
    avg_percentage := avgPercentage (rows.map (fun r =>
      match r with
      | (some q, some s) => pctOfPair s.marks_obtained q.max_marks
      | _ => none)) }

/-! ## Document creation with cross-store reference validation

The controllers `createDiscussion` (src/src/models/ActivityLog.js:1377-1414)
and `submitAssignment` (src/unnamed/part_008:112-152) delegate persistence
to the statics `Discussion.createDiscussion` and `Assignment.submitAssignment`,
which are repository code not among the provided sources; those statics are
modelled from the spec (§4.1 Reference Validator). -/

/-- Reference-validation failures (spec §4.1 taxonomy). -/
inductive RefError where
  | notFound
  | roleMismatch
deriving DecidableEq, Repr

/-- The discussion document assembled by the `createDiscussion` controller. -/
structure DiscussionDoc where
  course_id : Int
  author_id : Int
  author_name : String
  title : String
  content : String
  tags : List String
deriving DecidableEq, Repr

/-- The per-student assignment document assembled by the `submitAssignment`
controller. -/
structure StudentAssignmentDoc where
  course_id : Int
  student_id : Int
  student_name : String
  title : String
  description : Option String
  submission_type : String
  submission_content : String
deriving DecidableEq, Repr

/-- The document-store state these two write paths touch. -/
structure DocStore where
  discussions : List DiscussionDoc
  student_assignments : List StudentAssignmentDoc
deriving DecidableEq, Repr

/-- Modelled from the spec: the `Discussion.createDiscussion` static called
at src/src/models/ActivityLog.js:1389 is not among the provided sources.
Per §4.1, before any document-store write embedding a relational id, the
Reference Validator confirms the referenced course row exists, failing with
NotFound otherwise, and the enclosing operation aborts before any
document-store mutation (validate-then-write, never write-then-validate). -/
def createDiscussionStatic (rel : RelationalDB) (doc : DocStore)
    (d : DiscussionDoc) : Except RefError (DiscussionDoc × DocStore) :=
  match findCourse d.course_id rel.courses with
  | none => Except.error RefError.notFound
  | some _ =>
    Except.ok (d, { doc with discussions := doc.discussions ++ [d] })

/-- Modelled from the spec: the `Assignment.submitAssignment` static called
at src/unnamed/part_008:134 is not among the provided sources. Per §4.1 it
validates the embedded `course_id` against the relational store first,
fails with NotFound when the course row is absent, and persists the
document only after validation succeeds. -/
def submitAssignmentStatic (rel : RelationalDB) (doc : DocStore)
    (d : StudentAssignmentDoc) : Except RefError (StudentAssignmentDoc × DocStore) :=
  match findCourse d.course_id rel.courses with
  | none => Except.error RefError.notFound
  | some _ =>
    Except.ok (d, { doc with student_assignments := doc.student_assignments ++ [d] })

/-- A controller response on the document write paths; `error` carries the
caught failure surfaced in the JSON envelope's error field. -/
structure DocApiResult where
  status : Nat
  success : Bool
  error : Option RefError
deriving DecidableEq, Repr

/-- Embeds the `createDiscussion` controller
(src/src/models/ActivityLog.js:1377-1414): 400 when title or content is
missing, otherwise delegates to the static; a thrown error is caught and
answered as a failure with no document persisted. -/
def createDiscussionHandler (rel : RelationalDB) (doc : DocStore)
    (courseId userId : Int) (userName title content : String)
    (tags : List String) : DocApiResult × DocStore :=
  if title = "" ∨ content = "" then
    ({ status := 400, success := false, error := none }, doc)
  else
    match createDiscussionStatic rel doc
        { course_id := courseId, author_id := userId, author_name := userName
          title := title, content := content, tags := tags } with
    | Except.ok (_, doc') => ({ status := 201, success := true, error := none }, doc')
    | Except.error e => ({ status := 500, success := false, error := some e }, doc)

/-- Embeds the `submitAssignment` controller (src/unnamed/part_008:112-152):
400 when title, submission type or content is missing, otherwise delegates
to the static; a thrown error is caught and answered as a failure with no
document persisted. -/
def submitAssignmentHandler (rel : RelationalDB) (doc : DocStore)
    (courseId studentId : Int) (studentName title : String)
    (description : Option String) (subType subContent : String) :
    DocApiResult × DocStore :=
  if title = "" ∨ subType = "" ∨ subContent = "" then
    ({ status := 400, success := false, error := none }, doc)
  else
    match submitAssignmentStatic rel doc
        { course_id := courseId, student_id := studentId
          student_name := studentName, title := title
          description := description, submission_type := subType
          submission_content := subContent } with
    | Except.ok (_, doc') => ({ status := 201, success := true, error := none }, doc')
    | Except.error e => ({ status := 500, success := false, error := some e }, doc)

/-! ### Concrete sample documents used to witness the theorems -/

/-- A fresh discussion with no posts (schema defaults). -/
def sampleDiscussion : Discussion :=
  { course_id := 1
    title := "Welcome"
    created_by := 4
    posts := []
    post_count := 0
    updated_at := 0 }

/-- A relational state with one course and one dropped enrollment of
student 7 in it. -/
def sampleDB : RelationalDB :=
  { courses := [{ course_id := 1, course_name := "Databases" }]
    enrollments :=
      [{ enrollment_id := 3, student_id := 7, course_id := 1
         status := EnrollStatus.dropped }]
    next_enrollment_id := 4 }

/-- An always-succeeding activity-log save. -/
def okSink : ActivityLogEntry → Except String ActivityLogEntry :=
  fun e => Except.ok e

/-- An always-failing activity-log save. -/
def downSink : ActivityLogEntry → Except String ActivityLogEntry :=
  fun _ => Except.error "MongoDB connection lost"

/-- A sample relational half of the platform report. -/
def sampleMySQLHalf : MySQLStatsHalf :=
  { users_by_role := [("student", 5), ("instructor", 2)]
    total_courses := 3
    total_enrollments := 10
    total_quizzes := 4
    total_submissions := 20 }

/-- Quiz table sample: course 1 has one quiz, course 2 has none. -/
def sampleQuizzes : List QuizRow :=
  [{ quiz_id := 11, course_id := 1, max_marks := 100 }]

/-- Submission table sample: only student 9 has submitted. -/
def sampleQuizSubs : List QuizSubmissionRow :=
  [{ submission_id := 21, quiz_id := 11, student_id := 9, marks_obtained := 80 }]

/-- An empty document store. -/
def emptyDocStore : DocStore :=
  { discussions := [], student_assignments := [] }


/-- A sample submit payload. -/
def sampleData : SubmissionData :=
  { submission_type := some "text"
    file_path := none
    submission_link := none
    submission_text := some "my answer"
    remarks := none }

/-- A freshly created assignment (schema defaults: no submissions,
`submission_count = 0`, `allow_late_submission = false`). -/
def sampleAssignment : Assignment :=
  { course_id := 1
    max_marks := 100
    due_date := 100
    allow_late_submission := false
    submissions := []
    submission_count := 0
    updated_at := 0 }

/-- The sample assignment with late submissions allowed. -/
def sampleLateOk : Assignment :=
  { sampleAssignment with allow_late_submission := true }

/-- An on-time sample submission by student 7. -/
def sampleSubmission : Submission := buildSubmission 7 sampleData 50 false

/-- The sample assignment holding student 7's submission. -/
def gradedAssignment : Assignment :=
  { sampleAssignment with submissions := [sampleSubmission], submission_count := 1 }

/-- An in-range grading payload. -/
def sampleGrade : GradeData :=
  { grade := 85, feedback := some "good work", graded_by := some 2 }

/-- A grading payload exceeding `max_marks = 100`. -/
def sampleGradeHigh : GradeData :=
  { grade := 101, feedback := none, graded_by := some 2 }

/-! ### List-level lemmas for the submission operations -/

theorem hasStudent_eq_any (studentId : Int) (l : List Submission) :
    hasStudent studentId l = l.any (fun s => s.student_id = studentId) := by
  induction l with
  | nil => rfl
  | cons s rest ih =>
    by_cases h : s.student_id = studentId <;> simp [hasStudent, h, ih]

theorem findByStudent_eq_none (studentId : Int) (l : List Submission)
    (h : ∀ s ∈ l, s.student_id ≠ studentId) : findByStudent studentId l = none := by
  induction l with
  | nil => rfl
  | cons s rest ih =>
    have hs : s.student_id ≠ studentId := h s (List.mem_cons_self s rest)
    simp only [findByStudent, if_neg hs]
    exact ih (fun t ht => h t (List.mem_cons_of_mem s ht))

theorem findByStudent_append_single (studentId : Int) (l : List Submission)
    (sub : Submission) (hl : hasStudent studentId l = false)
    (hsub : sub.student_id = studentId) :
    findByStudent studentId (l ++ [sub]) = some sub := by
  induction l with
  | nil => simp [findByStudent, hsub]
  | cons s rest ih =>
    simp only [hasStudent] at hl
    by_cases h : s.student_id = studentId
    · simp [h] at hl
    · simp only [List.cons_append, findByStudent, if_neg h]
      exact ih (by simpa [h] using hl)

theorem findByStudent_replaceFirst (studentId : Int) (l : List Submission)
    (sub : Submission) (hl : hasStudent studentId l = true)
    (hsub : sub.student_id = studentId) :
    findByStudent studentId (replaceFirstByStudent studentId sub l) = some sub := by
  induction l with
  | nil => simp [hasStudent] at hl
  | cons s rest ih =>
    by_cases h : s.student_id = studentId
    · simp [replaceFirstByStudent, findByStudent, h, hsub]
    · simp only [hasStudent, if_neg h] at hl
      simp only [replaceFirstByStudent, if_neg h, findByStudent, if_neg h]
      exact ih hl

theorem replaceFirstByStudent_length (studentId : Int) (sub : Submission)
    (l : List Submission) :
    (replaceFirstByStudent studentId sub l).length = l.length := by
  induction l with
  | nil => rfl
  | cons s rest ih =>
    by_cases h : s.student_id = studentId <;>
      simp [replaceFirstByStudent, h, ih]

theorem gradeFirstByStudent_length (studentId : Int) (g : GradeData) (now : Nat)
    (l : List Submission) :
    (gradeFirstByStudent studentId g now l).length = l.length := by
  induction l with
  | nil => rfl
  | cons s rest ih =>
    by_cases h : s.student_id = studentId <;>
      simp [gradeFirstByStudent, h, ih]

theorem mem_replaceFirstByStudent (studentId : Int) (sub : Submission)
    (l : List Submission) (t : Submission)
    (ht : t ∈ replaceFirstByStudent studentId sub l) : t ∈ l ∨ t = sub := by
  induction l with
  | nil => simp [replaceFirstByStudent] at ht
  | cons s rest ih =>
    by_cases h : s.student_id = studentId
    · simp only [replaceFirstByStudent, if_pos h] at ht
      rcases List.mem_cons.mp ht with rfl | ht'
      · exact Or.inr rfl
      · exact Or.inl (List.mem_cons_of_mem s ht')
    · simp only [replaceFirstByStudent, if_neg h] at ht
      rcases List.mem_cons.mp ht with rfl | ht'
      · exact Or.inl (List.mem_cons_self t rest)
      · rcases ih ht' with h' | h'
        · exact Or.inl (List.mem_cons_of_mem s h')
        · exact Or.inr h'

theorem replaceFirstByStudent_distinct (studentId : Int) (sub : Submission)
    (hsub : sub.student_id = studentId) (l : List Submission)
    (hl : StudentIdsDistinct l) :
    StudentIdsDistinct (replaceFirstByStudent studentId sub l) := by
  induction l with
  | nil => exact hl
  | cons s rest ih =>
    rcases List.pairwise_cons.mp hl with ⟨hhead, htail⟩
    by_cases h : s.student_id = studentId
    · simp only [replaceFirstByStudent, if_pos h]
      refine List.pairwise_cons.mpr ⟨?_, htail⟩
      intro t ht
      have := hhead t ht
      rw [hsub, ← h]
      exact this
    · simp only [replaceFirstByStudent, if_neg h]
      refine List.pairwise_cons.mpr ⟨?_, ih htail⟩
      intro t ht
      rcases mem_replaceFirstByStudent studentId sub rest t ht with ht' | rfl
      · exact hhead t ht'
      · rw [hsub]
        exact h

theorem append_new_student_distinct (studentId : Int) (sub : Submission)
    (hsub : sub.student_id = studentId) (l : List Submission)
    (hl : StudentIdsDistinct l) (habs : hasStudent studentId l = false) :
    StudentIdsDistinct (l ++ [sub]) := by
  induction l with
  | nil => simp [StudentIdsDistinct]
  | cons s rest ih =>
    rcases List.pairwise_cons.mp hl with ⟨hhead, htail⟩
    simp only [hasStudent] at habs
    by_cases h : s.student_id = studentId
    · simp [h] at habs
    · refine List.pairwise_cons.mpr ⟨?_, ih htail (by simpa [h] using habs)⟩
      intro t ht
      rcases List.mem_append.mp ht with ht' | ht'
      · exact hhead t ht'
      · rcases List.mem_singleton.mp ht' with rfl
        rw [hsub]
        exact h

theorem findByStudent_gradeFirst (studentId : Int) (g : GradeData) (now : Nat)
    (l : List Submission) (s : Submission) (h : findByStudent studentId l = some s) :
    findByStudent studentId (gradeFirstByStudent studentId g now l) =
      some (applyGrade g now s) := by
  induction l with
  | nil => simp [findByStudent] at h
  | cons t rest ih =>
    by_cases ht : t.student_id = studentId
    · simp only [findByStudent, if_pos ht, Option.some.injEq] at h
      subst h
      simp [gradeFirstByStudent, if_pos ht, findByStudent, applyGrade, ht]
    · simp only [findByStudent, if_neg ht] at h
      simp only [gradeFirstByStudent, if_neg ht, findByStudent, if_neg ht]
      exact ih h

theorem distinct_filter_length_le_one (l : List Submission)
    (h : StudentIdsDistinct l) (sid : Int) :
    (l.filter (fun s => decide (s.student_id = sid))).length ≤ 1 := by
  induction l with
  | nil => simp
  | cons s rest ih =>
    rcases List.pairwise_cons.mp h with ⟨hhead, htail⟩
    by_cases hs : s.student_id = sid
    · have hrest : rest.filter (fun t => decide (t.student_id = sid)) = [] := by
        rw [List.filter_eq_nil_iff]
        intro t ht
        simp only [decide_eq_true_eq]
        intro htid
        exact hhead t ht (hs.trans htid.symm)
      rw [List.filter_cons_of_pos (by simpa using hs), hrest]
      simp
    · rw [List.filter_cons_of_neg (by simpa using hs)]
      exact ih htail

theorem addSubmission_ok_elim {a : Assignment} {sid : Int} {d : SubmissionData}
    {now : Nat} {a' : Assignment} (h : addSubmission a sid d now = Except.ok a') :
    (hasStudent sid a.submissions = true ∧
      a' = { a with
        submissions := replaceFirstByStudent sid
          (buildSubmission sid d now (decide (now > a.due_date))) a.submissions
        updated_at := now }) ∨
    (hasStudent sid a.submissions = false ∧
      a' = { a with
        submissions :=
          a.submissions ++ [buildSubmission sid d now (decide (now > a.due_date))]
        submission_count :=
          (a.submissions ++ [buildSubmission sid d now (decide (now > a.due_date))]).length
        updated_at := now }) := by
  simp only [addSubmission] at h
  by_cases hl : (!a.allow_late_submission && decide (now > a.due_date)) = true
  · rw [if_pos hl] at h
    exact absurd h (by simp)
  · rw [if_neg hl] at h
    by_cases hhas : hasStudent sid a.submissions = true
    · rw [if_pos hhas] at h
      simp only [Except.ok.injEq] at h
      exact Or.inl ⟨hhas, h.symm⟩
    · rw [if_neg hhas] at h
      simp only [Except.ok.injEq] at h
      exact Or.inr ⟨Bool.not_eq_true _ ▸ hhas, h.symm⟩

theorem addSubmission_ok_WF {a : Assignment} {sid : Int} {d : SubmissionData}
    {now : Nat} {a' : Assignment} (hwf : SubWF a)
    (h : addSubmission a sid d now = Except.ok a') : SubWF a' := by
  rcases addSubmission_ok_elim h with ⟨hhas, rfl⟩ | ⟨hhas, rfl⟩
  · refine ⟨?_, ?_⟩
    · exact replaceFirstByStudent_distinct sid _ rfl a.submissions hwf.1
    · simpa [replaceFirstByStudent_length] using hwf.2
  · refine ⟨?_, by simp⟩
    exact append_new_student_distinct sid _ rfl a.submissions hwf.1 hhas

theorem submitStep_WF (a : Assignment) (op : Int × SubmissionData × Nat)
    (hwf : SubWF a) : SubWF (submitStep a op) := by
  unfold submitStep
  cases h : addSubmission a op.1 op.2.1 op.2.2 with
  | ok a' => exact addSubmission_ok_WF hwf h
  | error _ => exact hwf

theorem runSubmits_WF (a : Assignment) (ops : List (Int × SubmissionData × Nat))
    (hwf : SubWF a) : SubWF (runSubmits a ops) := by
  induction ops generalizing a with
  | nil => exact hwf
  | cons op rest ih => exact ih (submitStep a op) (submitStep_WF a op hwf)

/-- C2: for every Assignment document and every student_id, at most one
embedded Submission with that student_id exists after any sequence of submit
operations; a second submit by the same student replaces the prior entry in
place (same list length) and does not increase `submission_count`, which
always equals the length of the submissions list. -/
theorem atMostOneSubmissionPerStudent (a : Assignment) (hwf : SubWF a) :
    (∀ ops : List (Int × SubmissionData × Nat),
      SubWF (runSubmits a ops) ∧
      ∀ sid : Int,
        ((runSubmits a ops).submissions.filter
          (fun s => decide (s.student_id = sid))).length ≤ 1) ∧
    (∀ (sid : Int) (d : SubmissionData) (now : Nat) (a' : Assignment),
      hasStudent sid a.submissions = true →
      addSubmission a sid d now = Except.ok a' →
      a'.submissions.length = a.submissions.length ∧
      a'.submission_count = a.submission_count) := by
  constructor
  · intro ops
    have h := runSubmits_WF a ops hwf
    exact ⟨h, fun sid => distinct_filter_length_le_one _ h.1 sid⟩
  · intro sid d now a' hhas hok
    rcases addSubmission_ok_elim hok with ⟨_, rfl⟩ | ⟨habs, _⟩
    · exact ⟨replaceFirstByStudent_length sid _ a.submissions, rfl⟩
    · rw [hhas] at habs
      exact absurd habs (by simp)

theorem addSubmission_ok_find {a : Assignment} {sid : Int} {d : SubmissionData}
    {now : Nat} {a' : Assignment} (h : addSubmission a sid d now = Except.ok a') :
    getSubmissionByStudent a' sid =
      some (buildSubmission sid d now (decide (now > a.due_date))) := by
  rcases addSubmission_ok_elim h with ⟨hhas, rfl⟩ | ⟨hhas, rfl⟩
  · exact findByStudent_replaceFirst sid a.submissions _ hhas rfl
  · exact findByStudent_append_single sid a.submissions _ hhas rfl

theorem addSubmission_ok_of_not_rejected {a : Assignment} {sid : Int}
    {d : SubmissionData} {now : Nat}
    (h : (!a.allow_late_submission && decide (now > a.due_date)) = false) :
    ∃ a', addSubmission a sid d now = Except.ok a' := by
  simp only [addSubmission, h]
  by_cases hhas : hasStudent sid a.submissions = true
  · rw [if_neg (by simp [h]), if_pos hhas]
    exact ⟨_, rfl⟩
  · rw [if_neg (by simp [h]), if_neg hhas]
    exact ⟨_, rfl⟩

/-- C3: submitting past `due_date` with `allow_late_submission = false` fails
with the late-rejection error and leaves the stored document unchanged; a
late submission that is allowed is stored with status `late`; an on-time
submission is stored with status `submitted`. -/
theorem lateSubmissionRejected (a : Assignment) (sid : Int) (d : SubmissionData)
    (now : Nat) :
    (now > a.due_date → a.allow_late_submission = false →
      addSubmission a sid d now = Except.error lateRejectedMsg ∧
      submitStep a (sid, d, now) = a) ∧
    (now > a.due_date → a.allow_late_submission = true →
      ∃ a', addSubmission a sid d now = Except.ok a' ∧
        ∃ s, getSubmissionByStudent a' sid = some s ∧ s.status = SubStatus.late) ∧
    (¬ now > a.due_date →
      ∃ a', addSubmission a sid d now = Except.ok a' ∧
        ∃ s, getSubmissionByStudent a' sid = some s ∧
          s.status = SubStatus.submitted) := by
  refine ⟨?_, ?_, ?_⟩
  · intro hlate hallow
    have herr : addSubmission a sid d now = Except.error lateRejectedMsg := by
      simp only [addSubmission]
      rw [if_pos (by simp [hallow, hlate])]
    exact ⟨herr, by simp [submitStep, herr]⟩
  · intro hlate hallow
    obtain ⟨a', hok⟩ :=
      @addSubmission_ok_of_not_rejected a sid d now (by simp [hallow])
    refine ⟨a', hok, buildSubmission sid d now (decide (now > a.due_date)),
      addSubmission_ok_find hok, ?_⟩
    simp [buildSubmission, hlate]
  · intro hontime
    obtain ⟨a', hok⟩ :=
      @addSubmission_ok_of_not_rejected a sid d now (by simp [hontime])
    refine ⟨a', hok, buildSubmission sid d now (decide (now > a.due_date)),
      addSubmission_ok_find hok, ?_⟩
    simp [buildSubmission, hontime]

/-- C4: grading fails with NotFound when the student has no submission, fails
with the out-of-range error when `grade > max_marks` (leaving the stored
document and the existing submission unmodified), and otherwise sets `grade`,
`feedback`, `graded_by`, `graded_at` and status `graded` on the student's
submission. -/
theorem gradeSubmissionSpec (a : Assignment) (sid : Int) (g : GradeData)
    (now : Nat) :
    (getSubmissionByStudent a sid = none →
      gradeSubmission a sid g now = Except.error subNotFoundMsg ∧
      runGrade a sid g now = a) ∧
    (∀ s, getSubmissionByStudent a sid = some s → g.grade > a.max_marks →
      gradeSubmission a sid g now = Except.error gradeTooHighMsg ∧
      runGrade a sid g now = a ∧
      getSubmissionByStudent (runGrade a sid g now) sid = some s) ∧
    (∀ s, getSubmissionByStudent a sid = some s → ¬ g.grade > a.max_marks →
      ∃ a', gradeSubmission a sid g now = Except.ok a' ∧
        getSubmissionByStudent a' sid = some (applyGrade g now s) ∧
        (applyGrade g now s).grade = some g.grade ∧
        (applyGrade g now s).feedback = g.feedback ∧
        (applyGrade g now s).graded_by = g.graded_by ∧
        (applyGrade g now s).graded_at = some now ∧
        (applyGrade g now s).status = SubStatus.graded) := by
  refine ⟨?_, ?_, ?_⟩
  · intro hnone
    have herr : gradeSubmission a sid g now = Except.error subNotFoundMsg := by
      unfold gradeSubmission
      rw [show findByStudent sid a.submissions = none from hnone]
    exact ⟨herr, by simp [runGrade, herr]⟩
  · intro s hsome hgt
    have herr : gradeSubmission a sid g now = Except.error gradeTooHighMsg := by
      unfold gradeSubmission
      rw [show findByStudent sid a.submissions = some s from hsome, if_pos hgt]
    refine ⟨herr, by simp [runGrade, herr], ?_⟩
    simp only [runGrade, herr]
    exact hsome
  · intro s hsome hle
    have hok : gradeSubmission a sid g now = Except.ok { a with
        submissions := gradeFirstByStudent sid g now a.submissions
        updated_at := now } := by
      unfold gradeSubmission
      rw [show findByStudent sid a.submissions = some s from hsome, if_neg hle]
    refine ⟨_, hok, ?_, rfl, rfl, rfl, rfl, rfl⟩
    exact findByStudent_gradeFirst sid g now a.submissions s hsome

/-- Witness for C2: two submits by student 7 into a fresh assignment leave a
well-formed document with at most one entry for student 7. -/
theorem atMostOneSubmissionPerStudent_witness :
    SubWF (runSubmits sampleAssignment [(7, sampleData, 5), (7, sampleData, 6)]) ∧
    ((runSubmits sampleAssignment [(7, sampleData, 5), (7, sampleData, 6)]).submissions.filter
      (fun s => decide (s.student_id = 7))).length ≤ 1 := by
  have h := atMostOneSubmissionPerStudent sampleAssignment (by decide)
  exact ⟨(h.1 _).1, (h.1 _).2 7⟩

/-- Witness for C3: at time 200 (past due 100) the no-late assignment rejects,
the late-allowing assignment stores status `late`, and at time 50 the
submission is stored with status `submitted`. -/
theorem lateSubmissionRejected_witness :
    (addSubmission sampleAssignment 7 sampleData 200 = Except.error lateRejectedMsg ∧
      submitStep sampleAssignment (7, sampleData, 200) = sampleAssignment) ∧
    (∃ a', addSubmission sampleLateOk 7 sampleData 200 = Except.ok a' ∧
      ∃ s, getSubmissionByStudent a' 7 = some s ∧ s.status = SubStatus.late) ∧
    (∃ a', addSubmission sampleAssignment 7 sampleData 50 = Except.ok a' ∧
      ∃ s, getSubmissionByStudent a' 7 = some s ∧ s.status = SubStatus.submitted) := by
  refine ⟨(lateSubmissionRejected sampleAssignment 7 sampleData 200).1 (by decide) rfl,
    (lateSubmissionRejected sampleLateOk 7 sampleData 200).2.1 (by decide) rfl,
    (lateSubmissionRejected sampleAssignment 7 sampleData 50).2.2 (by decide)⟩

/-- Witness for C4: grading an absent submission fails NotFound; grade 101
against `max_marks = 100` fails out-of-range with the document unchanged;
grade 85 succeeds and marks the submission graded. -/
theorem gradeSubmissionSpec_witness :
    (gradeSubmission sampleAssignment 7 sampleGrade 60 = Except.error subNotFoundMsg) ∧
    (gradeSubmission gradedAssignment 7 sampleGradeHigh 60 = Except.error gradeTooHighMsg ∧
      runGrade gradedAssignment 7 sampleGradeHigh 60 = gradedAssignment) ∧
    (∃ a', gradeSubmission gradedAssignment 7 sampleGrade 60 = Except.ok a' ∧
      getSubmissionByStudent a' 7 = some (applyGrade sampleGrade 60 sampleSubmission) ∧
      (applyGrade sampleGrade 60 sampleSubmission).status = SubStatus.graded) := by
  refine ⟨((gradeSubmissionSpec sampleAssignment 7 sampleGrade 60).1 (by decide)).1, ?_, ?_⟩
  · have h := (gradeSubmissionSpec gradedAssignment 7 sampleGradeHigh 60).2.1
      sampleSubmission (by decide) (by decide)
    exact ⟨h.1, h.2.1⟩
  · obtain ⟨a', hok, hfind, _, _, _, _, hstat⟩ :=
      (gradeSubmissionSpec gradedAssignment 7 sampleGrade 60).2.2
        sampleSubmission (by decide) (by decide)
    exact ⟨a', hok, hfind, hstat⟩

/-! ### Lemmas for the discussion post operations -/

theorem foldl_max_le_init (l : List Post) (acc : Int) :
    acc ≤ l.foldl (fun m q => max m q.post_id) acc := by
  induction l generalizing acc with
  | nil => exact le_refl acc
  | cons p rest ih =>
    exact le_trans (le_max_left acc p.post_id) (ih (max acc p.post_id))

theorem mem_le_foldl_max (l : List Post) (acc : Int) (q : Post) (hq : q ∈ l) :
    q.post_id ≤ l.foldl (fun m q => max m q.post_id) acc := by
  induction l generalizing acc with
  | nil => simp at hq
  | cons p rest ih =>
    rcases List.mem_cons.mp hq with rfl | hq'
    · exact le_trans (le_max_right acc q.post_id)
        (foldl_max_le_init rest (max acc q.post_id))
    · exact ih (max acc p.post_id) hq'

theorem mem_le_maxPostId (l : List Post) (q : Post) (hq : q ∈ l) :
    q.post_id ≤ maxPostId l := by
  cases l with
  | nil => simp at hq
  | cons p rest =>
    rcases List.mem_cons.mp hq with rfl | hq'
    · exact foldl_max_le_init rest q.post_id
    · exact mem_le_foldl_max rest p.post_id q hq'

theorem findPost_eq_none (postId : Int) (l : List Post)
    (h : ∀ p ∈ l, p.post_id ≠ postId) : findPost postId l = none := by
  induction l with
  | nil => rfl
  | cons p rest ih =>
    have hp : p.post_id ≠ postId := h p (List.mem_cons_self p rest)
    simp only [findPost, if_neg hp]
    exact ih (fun q hq => h q (List.mem_cons_of_mem p hq))

theorem addPost_distinct (d : Discussion) (userId : Int) (content : String)
    (now : Nat) (h : PostIdsDistinct d.posts) :
    PostIdsDistinct (addPost d userId content now).posts := by
  unfold addPost PostIdsDistinct
  rw [List.pairwise_append]
  refine ⟨h, List.pairwise_singleton _ _, ?_⟩
  intro p hp b hb
  rcases List.mem_singleton.mp hb with rfl
  simp only
  by_cases hne : d.posts.length > 0
  · rw [if_pos hne]
    have := mem_le_maxPostId d.posts p hp
    omega
  · exfalso
    have hemp : d.posts = [] := List.length_eq_zero.mp (Nat.eq_zero_of_not_pos hne)
    rw [hemp] at hp
    simp at hp

theorem addPost_WF (d : Discussion) (userId : Int) (content : String)
    (now : Nat) (h : DiscWF d) : DiscWF (addPost d userId content now) :=
  ⟨addPost_distinct d userId content now h.1, rfl⟩

theorem runPosts_WF (d : Discussion) (ops : List (Int × String × Nat))
    (h : DiscWF d) : DiscWF (runPosts d ops) := by
  induction ops generalizing d with
  | nil => exact h
  | cons op rest ih =>
    exact ih (addPost d op.1 op.2.1 op.2.2) (addPost_WF d op.1 op.2.1 op.2.2 h)

/-- C5: `addPost` appends a post whose `post_id` is the maximum existing id
plus one (1 on an empty list), recomputes `post_count` as the list length
and stamps `updated_at`; well-formedness (unique ids, accurate counter) is
preserved by every sequence of appends; `editPost` of an absent `post_id`
fails NotFound and leaves the stored document unchanged. -/
theorem appendPostSpec (d : Discussion) (userId : Int) (content : String)
    (now : Nat) :
    (addPost d userId content now).posts =
      d.posts ++
        [{ post_id := if d.posts.length > 0 then maxPostId d.posts + 1 else 1
           user_id := userId
           content := content
           created_at := now
           edited_at := none
           is_edited := false }] ∧
    (addPost d userId content now).post_count =
      (addPost d userId content now).posts.length ∧
    (addPost d userId content now).updated_at = now ∧
    (∀ ops : List (Int × String × Nat), DiscWF d → DiscWF (runPosts d ops)) ∧
    (∀ (pid : Int) (newContent : String), (∀ p ∈ d.posts, p.post_id ≠ pid) →
      editPost d pid newContent now = Except.error postNotFoundMsg ∧
      editStep d pid newContent now = d) := by
  refine ⟨rfl, rfl, rfl, fun ops h => runPosts_WF d ops h, ?_⟩
  intro pid newContent habs
  have herr : editPost d pid newContent now = Except.error postNotFoundMsg := by
    unfold editPost
    rw [findPost_eq_none pid d.posts habs]
  exact ⟨herr, by simp [editStep, herr]⟩

/-- Witness for C5: on the empty sample discussion, two appends produce posts
1 and 2 and accurate counts, and editing absent post 99 fails NotFound. -/
theorem appendPostSpec_witness :
    (addPost sampleDiscussion 4 "hello" 10).posts =
      sampleDiscussion.posts ++
        [{ post_id := 1, user_id := 4, content := "hello", created_at := 10
           edited_at := none, is_edited := false }] ∧
    DiscWF (runPosts sampleDiscussion [(4, "hello", 10), (2, "world", 11)]) ∧
    editPost sampleDiscussion 99 "x" 10 = Except.error postNotFoundMsg ∧
    editStep sampleDiscussion 99 "x" 10 = sampleDiscussion := by
  have h := appendPostSpec sampleDiscussion 4 "hello" 10
  refine ⟨h.1, h.2.2.2.1 [(4, "hello", 10), (2, "world", 11)] (by decide), ?_, ?_⟩
  · exact (h.2.2.2.2 99 "x" (by decide)).1
  · exact (h.2.2.2.2 99 "x" (by decide)).2

/-! ### Enrollment, logging, reporting and aggregation theorems -/

theorem findEnrollment_isSome_of_mem (studentId courseId : Int)
    (l : List EnrollmentRow) (e : EnrollmentRow) (he : e ∈ l)
    (hs : e.student_id = studentId) (hc : e.course_id = courseId) :
    ∃ r, findEnrollment studentId courseId l = some r := by
  induction l with
  | nil => simp at he
  | cons x rest ih =>
    by_cases hx : x.student_id = studentId ∧ x.course_id = courseId
    · exact ⟨x, by simp [findEnrollment, hx]⟩
    · simp only [findEnrollment, if_neg hx]
      rcases List.mem_cons.mp he with rfl | he'
      · exact absurd ⟨hs, hc⟩ hx
      · exact ih he'

/-- C10: whenever the course exists and any enrollment row exists for the
(student, course) pair — its status may be `active`, `dropped` or
`completed` — the enroll handler answers HTTP 409 Conflict and inserts
nothing, so a dropped or completed student can never re-enroll through this
operation. -/
theorem enrollDuplicateConflict (db : RelationalDB)
    (sink : ActivityLogEntry → Except String ActivityLogEntry)
    (studentId courseId : Int)
    (hc : ∃ c, findCourse courseId db.courses = some c)
    (e : EnrollmentRow) (he : e ∈ db.enrollments)
    (hs : e.student_id = studentId) (hcid : e.course_id = courseId) :
    (enrollInCourse db sink studentId courseId).1.status = 409 ∧
    (enrollInCourse db sink studentId courseId).1.success = false ∧
    (enrollInCourse db sink studentId courseId).2 = db := by
  obtain ⟨c, hcourse⟩ := hc
  obtain ⟨r, hr⟩ :=
    findEnrollment_isSome_of_mem studentId courseId db.enrollments e he hs hcid
  unfold enrollInCourse
  rw [hcourse, hr]
  exact ⟨rfl, rfl, rfl⟩

/-- Witness for C10: student 7 holds a dropped enrollment in course 1 of the
sample database, and re-enrolling answers 409 without touching the store. -/
theorem enrollDuplicateConflict_witness :
    (enrollInCourse sampleDB okSink 7 1).1.status = 409 ∧
    (enrollInCourse sampleDB okSink 7 1).1.success = false ∧
    (enrollInCourse sampleDB okSink 7 1).2 = sampleDB := by
  exact enrollDuplicateConflict sampleDB okSink 7 1
    ⟨{ course_id := 1, course_name := "Databases" }, by decide⟩
    { enrollment_id := 3, student_id := 7, course_id := 1
      status := EnrollStatus.dropped }
    (by decide) rfl rfl

/-- C9: activity-log sink failures are swallowed by the caller:
`logManualActivityRun` resolves normally whatever the save result, the
`logActivity` middleware sends the original response whatever the save
result, and the enroll operation's response and committed relational state
are identical under any two sinks (so a failed log never changes what the
originating operation reports). -/
theorem activityLogFailureSwallowed :
    (∀ (save : ActivityLogEntry → Except String ActivityLogEntry)
       (entry : ActivityLogEntry),
      logManualActivityRun save entry = Except.ok ()) ∧
    (∀ (sink : ActivityLogEntry → Except String ActivityLogEntry)
       (entry : ActivityLogEntry) (response : ApiResponse),
      logActivityWrapper sink entry response = response) ∧
    (∀ (db : RelationalDB) (studentId courseId : Int)
       (sink1 sink2 : ActivityLogEntry → Except String ActivityLogEntry),
      enrollInCourse db sink1 studentId courseId =
        enrollInCourse db sink2 studentId courseId) := by
  have hwrap : ∀ (sink : ActivityLogEntry → Except String ActivityLogEntry)
      (entry : ActivityLogEntry) (response : ApiResponse),
      logActivityWrapper sink entry response = response := by
    intro sink entry response
    unfold logActivityWrapper
    cases sink entry <;> rfl
  have hswallow : ∀ (save : ActivityLogEntry → Except String ActivityLogEntry)
      (entry : ActivityLogEntry), logManualActivityRun save entry = Except.ok () := by
    intro save entry
    unfold logManualActivityRun
    cases save entry <;> rfl
  refine ⟨hswallow, hwrap, ?_⟩
  intro db studentId courseId sink1 sink2
  unfold enrollInCourse
  cases findCourse courseId db.courses with
  | none => rfl
  | some course =>
    cases findEnrollment studentId courseId db.enrollments with
    | some e => rfl
    | none => rw [hswallow sink1, hswallow sink2]

/-- C8 counterexample: with a healthy relational half and a failed document
half, `getPlatformStats` fails the whole report — the relational counts are
not returned with the document half marked null, refuting the
partial-failure claim at this concrete input. -/
theorem platformStatsPartialFailure_counterexample :
    getPlatformStats (Except.ok sampleMySQLHalf)
        (Except.error "MongoDB connection lost") =
      Except.error "MongoDB connection lost" ∧
    exceptOk (getPlatformStats (Except.ok sampleMySQLHalf)
        (Except.error "MongoDB connection lost")) = false :=
  ⟨rfl, rfl⟩

/-- C8 amended: the two halves run sequentially inside one try/catch, so the
merged report succeeds exactly when both halves succeed; a failure of either
store fails the entire report (single 500 catch) and no counts from the
other store are returned. -/
theorem platformStatsAllOrNothing (m : Except String MySQLStatsHalf)
    (g : Except String MongoStatsHalf) :
    exceptOk (getPlatformStats m g) = (exceptOk m && exceptOk g) ∧
    (∀ e, m = Except.error e → getPlatformStats m g = Except.error e) ∧
    (∀ a e, m = Except.ok a → g = Except.error e →
      getPlatformStats m g = Except.error e) ∧
    (∀ a b, m = Except.ok a → g = Except.ok b →
      getPlatformStats m g = Except.ok { mysql_stats := a, mongodb_stats := b }) := by
  cases m with
  | error e0 =>
    refine ⟨rfl, ?_, ?_, ?_⟩
    · intro e he
      cases he
      rfl
    · intro a e ha
      cases ha
    · intro a b ha
      cases ha
  | ok m0 =>
    cases g with
    | error e0 =>
      refine ⟨rfl, ?_, ?_, ?_⟩
      · intro e he
        cases he
      · intro a e ha he
        cases ha
        cases he
        rfl
      · intro a b _ hb
        cases hb
    | ok g0 =>
      refine ⟨rfl, ?_, ?_, ?_⟩
      · intro e he
        cases he
      · intro a e _ he
        cases he
      · intro a b ha hb
        cases ha
        cases hb
        rfl

/-- Witness for C8 amended: evaluated with the sample relational half and a
failed document half. -/
theorem platformStatsAllOrNothing_witness :
    exceptOk (getPlatformStats (Except.ok sampleMySQLHalf)
        (Except.error "MongoDB connection lost")) =
      (exceptOk (Except.ok sampleMySQLHalf : Except String MySQLStatsHalf) &&
        exceptOk (Except.error "MongoDB connection lost" :
          Except String MongoStatsHalf)) ∧
    getPlatformStats (Except.ok sampleMySQLHalf)
        (Except.error "MongoDB connection lost") =
      Except.error "MongoDB connection lost" := by
  have h := platformStatsAllOrNothing (Except.ok sampleMySQLHalf)
    (Except.error "MongoDB connection lost")
  exact ⟨h.1, h.2.2.1 sampleMySQLHalf "MongoDB connection lost" rfl rfl⟩

theorem avgPercentage_some (vals : List (Option ℚ)) (v : ℚ)
    (h : avgPercentage vals = some v) : ∃ raw, v = mysqlRound2 raw := by
  unfold avgPercentage at h
  cases hv : vals.filterMap id with
  | nil =>
    rw [hv] at h
    simp at h
  | cons x xs =>
    rw [hv] at h
    simp only [Option.some.injEq] at h
    exact ⟨_, h.symm⟩

/-- C7: in the per-student course aggregates, an enrolled student with zero
quiz submissions gets `avg_percentage = NULL` (never 0); for a course with
zero quizzes the summary view reports `total_quizzes = 0` and
`avg_percentage = NULL`; and every reported percentage is the 2-decimal
`ROUND` of the raw average. -/
theorem courseStudentSummaryNulls (quizzes : List QuizRow)
    (subs : List QuizSubmissionRow) (studentId courseId : Int) :
    (subs.filter (fun s => decide (s.student_id = studentId)) = [] →
      (getCourseStudentsRow quizzes subs studentId courseId).avg_percentage = none ∧
      (getCourseStudentsRow quizzes subs studentId courseId).quizzes_submitted = 0) ∧
    (quizzes.filter (fun q => decide (q.course_id = courseId)) = [] →
      (studentCourseSummaryRow quizzes subs studentId courseId).total_quizzes = 0 ∧
      (studentCourseSummaryRow quizzes subs studentId courseId).avg_percentage = none) ∧
    (∀ v, (getCourseStudentsRow quizzes subs studentId courseId).avg_percentage =
        some v → ∃ raw, v = mysqlRound2 raw) ∧
    (∀ v, (studentCourseSummaryRow quizzes subs studentId courseId).avg_percentage =
        some v → ∃ raw, v = mysqlRound2 raw) := by
  refine ⟨?_, ?_, fun v h => avgPercentage_some _ v h,
    fun v h => avgPercentage_some _ v h⟩
  · intro hempty
    have hrows : courseStudentsJoin quizzes subs studentId courseId = [(none, none)] := by
      unfold courseStudentsJoin
      rw [hempty]
    constructor
    · simp [getCourseStudentsRow, hrows, avgPercentage]
    · simp [getCourseStudentsRow, hrows]
  · intro hempty
    have hrows : summaryJoin quizzes subs studentId courseId = [(none, none)] := by
      unfold summaryJoin
      rw [hempty]
    constructor
    · simp [studentCourseSummaryRow, hrows]
    · simp [studentCourseSummaryRow, hrows, avgPercentage]

/-- Witness for C7: student 7 has no submissions, so the per-student row of
course 1 averages to NULL; course 2 has no quizzes, so the summary view
reports zero quizzes and a NULL average. -/
theorem courseStudentSummaryNulls_witness :
    (getCourseStudentsRow sampleQuizzes sampleQuizSubs 7 1).avg_percentage = none ∧
    (studentCourseSummaryRow sampleQuizzes sampleQuizSubs 7 2).total_quizzes = 0 ∧
    (studentCourseSummaryRow sampleQuizzes sampleQuizSubs 7 2).avg_percentage = none := by
  have h1 := (courseStudentSummaryNulls sampleQuizzes sampleQuizSubs 7 1).1 (by decide)
  have h2 := (courseStudentSummaryNulls sampleQuizzes sampleQuizSubs 7 2).2.1 (by decide)
  exact ⟨h1.1, h2.1, h2.2⟩

/-- C1 (statics modelled from the spec): when the embedded `course_id` has
no row in the relational store, both document write paths fail with NotFound
from the Reference Validator and the document store is returned unchanged —
validation precedes any document-store write. -/
theorem referenceValidatedBeforeWrite (rel : RelationalDB) (doc : DocStore)
    (courseId userId studentId : Int)
    (userName studentName title content : String) (tags : List String)
    (description : Option String) (subType subContent : String)
    (habsent : findCourse courseId rel.courses = none)
    (ht : ¬ title = "") (hcont : ¬ content = "")
    (hst : ¬ subType = "") (hsc : ¬ subContent = "") :
    createDiscussionStatic rel doc
      { course_id := courseId, author_id := userId, author_name := userName
        title := title, content := content, tags := tags } =
      Except.error RefError.notFound ∧
    createDiscussionHandler rel doc courseId userId userName title content tags =
      ({ status := 500, success := false, error := some RefError.notFound }, doc) ∧
    submitAssignmentStatic rel doc
      { course_id := courseId, student_id := studentId
        student_name := studentName, title := title, description := description
        submission_type := subType, submission_content := subContent } =
      Except.error RefError.notFound ∧
    submitAssignmentHandler rel doc courseId studentId studentName title
        description subType subContent =
      ({ status := 500, success := false, error := some RefError.notFound }, doc) := by
  have hd : createDiscussionStatic rel doc
      { course_id := courseId, author_id := userId, author_name := userName
        title := title, content := content, tags := tags } =
      Except.error RefError.notFound := by
    unfold createDiscussionStatic
    rw [habsent]
  have ha : submitAssignmentStatic rel doc
      { course_id := courseId, student_id := studentId
        student_name := studentName, title := title, description := description
        submission_type := subType, submission_content := subContent } =
      Except.error RefError.notFound := by
    unfold submitAssignmentStatic
    rw [habsent]
  refine ⟨hd, ?_, ha, ?_⟩
  · unfold createDiscussionHandler
    rw [if_neg (fun h => h.elim ht hcont), hd]
  · unfold submitAssignmentHandler
    rw [if_neg (fun h => h.elim ht (fun h' => h'.elim hst hsc)), ha]

/-- Witness for C1: course 99 does not exist in the sample database, and
both write paths answer the caught NotFound with the document store
untouched. -/
theorem referenceValidatedBeforeWrite_witness :
    createDiscussionHandler sampleDB emptyDocStore 99 4 "Ada" "HW1" "Hi" [] =
      ({ status := 500, success := false, error := some RefError.notFound },
        emptyDocStore) ∧
    submitAssignmentHandler sampleDB emptyDocStore 99 7 "Stu" "HW1" none
        "text" "my work" =
      ({ status := 500, success := false, error := some RefError.notFound },
        emptyDocStore) := by
  have h := referenceValidatedBeforeWrite sampleDB emptyDocStore 99 4 7
    "Ada" "Stu" "HW1" "Hi" [] none "text" "my work"
    (by decide) (by decide) (by decide) (by decide) (by decide)
  exact ⟨h.2.1, h.2.2.2⟩

end StudentPortal
